import Mathlib

/-!
Shallow embedding of the charliechat conversation-orchestration core
(`app/services/chat_service.py`, `app/services/ai_service.py`,
`app/services/prompt_engineering.py`, `app/services/lex_service.py`).

Python strings are modelled as lists of characters; the external AWS
collaborators (Lex recognizer, Bedrock generation, knowledge-base retrieval)
are abstracted as explicit inputs, exactly at the points where the source
performs network I/O.  All program logic that manipulates session state,
classifies questions, normalizes names or post-processes text is translated
directly from the source.
-/

/-- Text is modelled as a Python `str`: a list of characters. -/
abbrev Str := List Char

/-- The apostrophe character (used to build string constants that contain one). -/
def apos : Char := '\''

/-- Python whitespace as used by `str.strip()` and `\s` (ASCII range):
space, tab, newline, carriage return, vertical tab, form feed. -/
def pyIsSpace (c : Char) : Bool :=
  c == ' ' || c == '\t' || c == '\n' || c == '\r' || c == Char.ofNat 11 || c == Char.ofNat 12

/-- Python `str.strip()`: drop leading and trailing whitespace. -/
def pyStrip (s : Str) : Str :=
  ((s.dropWhile pyIsSpace).reverse.dropWhile pyIsSpace).reverse

/-- Python `str.replace(old, new)` for single-character arguments. -/
def pyReplaceChar (s : Str) (old new : Char) : Str :=
  s.map (fun c => if c == old then new else c)

/-- Python `str.lower()` restricted to ASCII (all inputs in the claims are ASCII). -/
def pyLower (s : Str) : Str := s.map Char.toLower

/-- Word character for the regex `\b` boundary test: `[A-Za-z0-9_]`. -/
def isWordChar (c : Char) : Bool := c.isAlpha || c.isDigit || c == '_'

/-- Helper for `pyTitle`: the boolean argument records whether the previous
character was a letter. -/
def pyTitleGo : Bool → Str → Str
  | _, [] => []
  | prevAlpha, c :: cs =>
      if c.isAlpha then
        (if prevAlpha then c.toLower else c.toUpper) :: pyTitleGo true cs
      else c :: pyTitleGo false cs

/-- Python `str.title()` (ASCII): a letter that follows a non-letter is
uppercased, a letter that follows a letter is lowercased. -/
def pyTitle (s : Str) : Str := pyTitleGo false s

/-- Python substring test `needle in hay`. -/
def isSubstr (needle : Str) : Str → Bool
  | [] => needle.isEmpty
  | c :: t => needle.isPrefixOf (c :: t) || isSubstr needle t

/-- `any(word in question for word in words)`. -/
def containsAnyOf (hay : Str) (needles : List Str) : Bool :=
  needles.any (fun n => isSubstr n hay)

/-- The alias table of `AIService.normalize_person_name` (source lines 84-90). -/
def name_mapping : List (Str × Str) :=
  [ (("charlie").data, ("Charles").data),
    (("chaz").data, ("Charles").data),
    (("charles o").data ++ [apos] ++ ("brien").data, ("Charles").data),
    (("charles obrien").data, ("Charles").data),
    (("charles o brien").data, ("Charles").data) ]

/-- Python `dict.get(k, default)` lookup over an association list. -/
def lookupAssoc (k : Str) : List (Str × Str) → Option Str
  | [] => none
  | (k0, v0) :: rest => if k = k0 then some v0 else lookupAssoc k rest

/-- `AIService.normalize_person_name`.  `default_person` models
`self.default_person` (`DEFAULT_PERSON` env var, default `"Charles"`). -/
def normalize_person_name (default_person : Str) (person_value : Option Str) : Str :=
  match person_value with
  | none => default_person
  | some s =>
      if pyStrip s = [] then default_person
      else
        match lookupAssoc (pyLower (pyStrip s)) name_mapping with
        | some v => v
        | none => pyTitle (pyStrip s)

/-- `question.lower().strip()` as computed at the top of
`PromptEngineer.calculate_response_length`. -/
def question_lower (question : Str) : Str := pyStrip (pyLower question)

/-- The exact-match greeting set of the regex
`^(hi|hello|hey|thanks?|thank you|yes|no|ok|okay|sure|yep|nope)$`
(anchored on the already-stripped text, so it is an equality test;
`thanks?` contributes both `thank` and `thanks`). -/
def greeting_words : List Str :=
  [ ("hi").data, ("hello").data, ("hey").data, ("thank").data, ("thanks").data,
    ("thank you").data, ("yes").data, ("no").data, ("ok").data, ("okay").data,
    ("sure").data, ("yep").data, ("nope").data ]

/-- Simple-attribute keyword set (source lines 115-118). -/
def fact_words : List Str :=
  [ ("education").data, ("degree").data, ("school").data, ("university").data,
    ("college").data, ("skills").data, ("certifications").data, ("cert").data,
    ("certificate").data ]

/-- Interrogative keyword set (source lines 122-124). -/
def interrogative_words : List Str :=
  [ ("what").data, ("how").data, ("when").data, ("where").data, ("why").data,
    ("which").data, ("who").data ]

/-- Narrative keyword set (source lines 128-131). -/
def narrative_words : List Str :=
  [ ("tell me about yourself").data, ("background").data, ("experience").data,
    ("career").data, ("overview").data, ("story").data, ("history").data,
    ("everything").data ]

/-- The branch constant selected by the keyword classification of
`PromptEngineer.calculate_response_length`, before the cap is applied. -/
def classified_value (question : Str) : Nat :=
  if greeting_words.contains (question_lower question) then 100
  else if containsAnyOf (question_lower question) fact_words then 700
  else if containsAnyOf (question_lower question) interrogative_words then 600
  else if containsAnyOf (question_lower question) narrative_words then 700
  else 500

/-- `PromptEngineer.calculate_response_length` (source lines 97-135):
every branch returns `min(value, max_tokens)`. -/
def calculate_response_length (question : Str) (max_tokens : Nat) : Nat :=
  if greeting_words.contains (question_lower question) then min 100 max_tokens
  else if containsAnyOf (question_lower question) fact_words then min 700 max_tokens
  else if containsAnyOf (question_lower question) interrogative_words then min 600 max_tokens
  else if containsAnyOf (question_lower question) narrative_words then min 700 max_tokens
  else min 500 max_tokens

/-- Index of the last occurrence of `c` in `s` (Python `str.rfind`; `none`
models the `-1` result).  `i` is the index of the head of the remaining list,
`best` the best index found so far. -/
def rfindGo (c : Char) (i : Nat) (best : Option Nat) : Str → Option Nat
  | [] => best
  | x :: t => rfindGo c (i + 1) (if x == c then some i else best) t

/-- Python `s.rfind(c)`. -/
def rfindChar (s : Str) (c : Char) : Option Nat := rfindGo c 0 none s

/-- The comparison `index > max_length * 0.8` of `AIService._trim_answer`,
with Python's `-1` modelled as `none`.  The float product is modelled by the
exact rational comparison `5 * n > 4 * m`; for the single cap the program uses
(1200) Python computes `1200 * 0.8 == 960.0` exactly, so the two agree. -/
def gtFrac (o : Option Nat) (m : Nat) : Bool :=
  match o with
  | some n => decide (5 * n > 4 * m)
  | none => false

/-- `AIService._trim_answer` (source lines 94-125).  The source's locals are
inlined: `answer.strip()` is `pyStrip answer`, `trimmed` is
`(pyStrip answer).take m`, and `last_period`/`last_newline` are the
`rfindChar` calls on it. -/
def trim_answer (answer : Str) : Option Nat → Str
  | none => pyStrip answer
  | some m =>
      if (pyStrip answer).length ≤ m then pyStrip answer
      else
        if gtFrac (rfindChar ((pyStrip answer).take m) '.') m then
          (pyStrip answer).take ((rfindChar ((pyStrip answer).take m) '.').getD 0 + 1)
        else if gtFrac (rfindChar ((pyStrip answer).take m) '\n') m then
          (pyStrip answer).take ((rfindChar ((pyStrip answer).take m) '\n').getD 0)
        else (pyStrip answer).take m ++ ("...").data

/-- One `{question, answer}` entry of `conversation_history`. -/
structure Exchange where
  question : Str
  answer : Str
deriving DecidableEq, Repr

/-- The session-attribute dictionary threaded through a turn.  `none` in an
optional field models the key being absent from the Python dict; an absent
`conversation_history` key is identified with the empty list (the source only
reads it through `.get("conversation_history", [])`, and every write stores
the key explicitly). -/
structure SessionState where
  conversation_history : List Exchange
  current_voice_style : Option Str
  last_question : Option Str
  last_answer : Option Str
deriving DecidableEq, Repr

/-- The empty dict: a session before its first turn. -/
def SessionState.empty : SessionState := ⟨[], none, none, none⟩

/-- `question.strip().replace(newline, space).replace(cr, space)` as applied
before storing the question (ai_service source lines 470 and 490). -/
def sanitize_question (q : Str) : Str :=
  pyReplaceChar (pyReplaceChar (pyStrip q) '\n' ' ') '\r' ' '

/-- The fixed fallback apology of `AIService.query_bedrock` (source line 503). -/
def fallback_message : Str :=
  ("I").data ++ [apos] ++ ("m having trouble processing your request right now. Please try again.").data

/-- The fixed clarification of `ChatService.process_chat` (source line 71). -/
def clarification_message : Str :=
  ("I did not catch a question. Please ask me about experience, skills, or leadership style.").data

/-- `conversation_history[-3:] if len > 3` (ai_service source lines 494-495). -/
def trim3 (h : List Exchange) : List Exchange :=
  if h.length > 3 then h.drop (h.length - 3) else h

/-- `AIService.query_bedrock` (source lines 384-510).  The external Bedrock
call is abstracted: `gen` is `.ok text` when `invoke_model` plus response
parsing yields `text`, and `.error ()` when any step of the `try` block
raises.  Prompt building, KB retrieval and the token budget only shape that
external request and never touch the session attributes, so they do not
appear here.  `person` is used only inside the prompt. -/
def query_bedrock (person question : Str) (session_attributes : SessionState)
    (voice_style : Str) (gen : Except Unit Str) : Str × SessionState :=
  match gen with
  | .ok ai_response =>
      let trimmed_for_history := trim_answer ai_response (some 1200)
      (ai_response,
        { conversation_history :=
            trim3 (session_attributes.conversation_history
              ++ [⟨sanitize_question question, trimmed_for_history⟩]),
          current_voice_style := some voice_style,
          last_question := some (sanitize_question question),
          last_answer := some ai_response })
  | .error _ =>
      (fallback_message,
        { session_attributes with last_answer := none, last_question := none })

/-- The question ChatService.process_chat settles on (source lines 57-71):
the extracted question slot if non-blank, else the raw text if non-blank,
else nothing. -/
def effective_question (text : Str) (question_slot : Option Str) : Option Str :=
  match question_slot with
  | some q =>
      if pyStrip q ≠ [] then some (pyStrip q)
      else if pyStrip text ≠ [] then some (pyStrip text) else none
  | none => if pyStrip text ≠ [] then some (pyStrip text) else none

/-- The Python dict merge `{**session_attributes, **updated_attributes}`
(chat_service source line 134): values of `updated` win, and a key popped
from `updated` falls back to the pre-turn attributes.  `conversation_history`
is present in `updated` on every path that reaches the merge, so it is taken
from `updated` unconditionally. -/
def merge_states (session_attributes updated : SessionState) : SessionState :=
  { conversation_history := updated.conversation_history,
    current_voice_style :=
      updated.current_voice_style.orElse (fun _ => session_attributes.current_voice_style),
    last_question :=
      updated.last_question.orElse (fun _ => session_attributes.last_question),
    last_answer :=
      updated.last_answer.orElse (fun _ => session_attributes.last_answer) }

/-- `ChatService.process_chat` (source lines 25-140).  The local fallback
pattern-matcher `_extract_intent_slots` (line 48) stands in for the external
recognizer and is abstracted as the `slots` argument `(person_slot,
question_slot)`; for blank input it returns `(none, none)` (source lines
152-153).  KB retrieval, KB selection and the response-length calculation
only shape the external generation request, which is abstracted into `gen`. -/
def process_chat (text : Str) (session_state : Option SessionState)
    (voice_style : Str) (slots : Option Str × Option Str)
    (gen : Except Unit Str) : Str × SessionState :=
  let session_attributes :=
    { session_state.getD SessionState.empty with current_voice_style := some voice_style }
  match effective_question text slots.2 with
  | none => (clarification_message, session_attributes)
  | some question_text =>
      let person := normalize_person_name (("Charles").data) slots.1
      let r := query_bedrock person question_text session_attributes voice_style gen
      (r.1, merge_states session_attributes r.2)

/-- One turn of input as the orchestrator sees it. -/
structure Turn where
  text : Str
  slots : Option Str × Option Str
  voice_style : Str
  gen : Except Unit Str

/-- The session state handed to the next turn. -/
def turn_step (st : SessionState) (t : Turn) : SessionState :=
  (process_chat t.text (some st) t.voice_style t.slots t.gen).2

/-- The Python default for the `voice_style` parameter of
`ChatService.process_chat` (and the route form field): a call that omits the
argument runs with `"normal"`. -/
def default_voice_style : Str := ("normal").data

/-- `LexService` response, reduced to the one field
`has_direct_response` inspects: the list of recognizer messages. -/
structure LexResponse where
  messages : List Str

/-- `LexService.has_direct_response` (source lines 119-130). -/
def has_direct_response (r : LexResponse) : Bool := r.messages.length > 0

/-- Python `sep.join(parts)`. -/
def joinSep (sep : Str) : List Str → Str
  | [] => []
  | [x] => x
  | x :: xs => x ++ sep ++ joinSep sep xs

/-- Python string `<` (lexicographic by code point). -/
def strLt : Str → Str → Bool
  | [], [] => false
  | [], _ :: _ => true
  | _ :: _, [] => false
  | a :: xs, b :: ys =>
      if a.toNat < b.toNat then true
      else if b.toNat < a.toNat then false
      else strLt xs ys

/-- Python `min` over a non-empty list of strings. -/
def minStr (l : List Str) : Str :=
  l.foldl (fun acc x => if strLt x acc then x else acc) (l.headD [])

/-- Python `max` over a non-empty list of strings. -/
def maxStr (l : List Str) : Str :=
  l.foldl (fun acc x => if strLt acc x then x else acc) (l.headD [])

/-- `\b` test against the character before the current position. -/
def boundaryOk (prev : Option Char) : Bool :=
  match prev with
  | none => true
  | some p => !(isWordChar p)

/-- `\b` test against the first character after the match. -/
def headNotWord (l : Str) : Bool :=
  match l with
  | [] => true
  | c :: _ => !(isWordChar c)

/-- `re.findall(r'\b(19|20)\d{2}\b', s)`: Python returns the *captured
group* (`"19"` or `"20"`), not the full four-digit match.  Scanning is
left-to-right and non-overlapping; `prev` is the character before the
current position (`none` at the start of the string). -/
def findall_year_group_go (prev : Option Char) : Str → List Str
  | c1 :: c2 :: c3 :: c4 :: rest =>
      if boundaryOk prev && ((c1 == '1' && c2 == '9') || (c1 == '2' && c2 == '0'))
          && c3.isDigit && c4.isDigit && headNotWord rest then
        [c1, c2] :: findall_year_group_go (some c4) rest
      else
        findall_year_group_go (some c1) (c2 :: c3 :: c4 :: rest)
  | _ => []

/-- `re.findall(r'\b(19|20)\d{2}\b', passage)` (prompt_engineering line 155). -/
def findall_year_group (s : Str) : List Str := findall_year_group_go none s

/-- One match attempt of `\s*([^\n]+)` immediately after a bullet character,
with regex backtracking: `\s*` is greedy but gives characters back until
`[^\n]+` can match at least one character.  Returns the capture and the text
after the match. -/
def bullet_capture (rest : Str) : Option (Str × Str) :=
  let w := (rest.takeWhile pyIsSpace).length
  if w < rest.length then
    let cap := (rest.drop w).takeWhile (fun c => c != '\n')
    some (cap, rest.drop (w + cap.length))
  else
    let trailNl := (rest.reverse.takeWhile (fun c => c == '\n')).length
    if trailNl = rest.length then none
    else
      let k := rest.length - trailNl - 1
      let cap := (rest.drop k).takeWhile (fun c => c != '\n')
      some (cap, rest.drop (k + cap.length))

/-- The bullet character class `[-•]`. -/
def isBulletChar (c : Char) : Bool := c == '-' || c == Char.ofNat 8226

/-- Worker for `findall_bullets`; the fuel argument (initially the string
length) only certifies termination — every recursive call has consumed at
least one character. -/
def findall_bullets_go : Nat → Str → List Str
  | 0, _ => []
  | _, [] => []
  | fuel + 1, c :: rest =>
      if isBulletChar c then
        match bullet_capture rest with
        | some (cap, rest2) => cap :: findall_bullets_go fuel rest2
        | none => findall_bullets_go fuel rest
      else findall_bullets_go fuel rest

/-- `re.findall(r'[-•]\s*([^\n]+)', passage)` (prompt_engineering line 162). -/
def findall_bullets (s : Str) : List Str := findall_bullets_go s.length s

/-- The per-passage reduction inside `PromptEngineer.summarize_kb_context`
(source lines 153-168). -/
def summarize_passage (passage : Str) : Str :=
  let dates := findall_year_group passage
  let date_range :=
    if dates ≠ [] then
      if dates.length > 1 then minStr dates ++ [ '-' ] ++ maxStr dates else dates.headD []
    else ("Recent").data
  let key_points := findall_bullets passage
  if key_points ≠ [] then
    ("[").data ++ date_range ++ ("] ").data ++ joinSep (("; ").data) (key_points.take 3)
  else
    ("[").data ++ date_range ++ ("] ").data ++ passage.take 200 ++ ("...").data

/-- `PromptEngineer.summarize_kb_context` (source lines 137-173); the flag
argument models `self.enable_kb_summarization` (`ENABLE_KB_SUMMARIZATION`). -/
def summarize_kb_context (enable_kb_summarization : Bool) (passages : List Str) : Str :=
  if !enable_kb_summarization || passages.isEmpty then
    joinSep ([ '\n', '\n' ]) passages
  else
    joinSep ([ '\n', '\n' ]) (passages.map summarize_passage)

/-- The passage exhibiting the year-capture defect, claim C9. -/
def bug_passage : Str :=
  ("- Led migration in 1999").data ++ '\n' :: ("- Joined team in 2023").data

/-- A successful generative turn pushing question `q` and answer `a`
(question slot extracted verbatim, backend succeeds). -/
def fifo_turn (q a : Str) : Turn := ⟨q, (none, some q), default_voice_style, .ok a⟩

/-- A session that already holds one exchange and the `last_question` /
`last_answer` mirror, as left behind by a successful first turn. -/
def pre_failure_state : SessionState :=
  ⟨[⟨("q0").data, ("a0").data⟩], some default_voice_style,
    some (("q0").data), some (("a0").data)⟩

/-- A session whose stored voice style is `pirate`. -/
def pirate_state : SessionState := ⟨[], some (("pirate").data), none, none⟩

example : calculate_response_length (("hi").data) 1000 = 100 := by decide
example : calculate_response_length (("tell me about your background").data) 1000 = 700 := by decide
example : calculate_response_length (("tell me about your background").data) 200 = 200 := by decide
example : normalize_person_name (("Charles").data) (some (("maria").data)) = ("Maria").data := by decide
example : normalize_person_name (("Charles").data) (some (("Charlie").data)) = ("Charles").data := by decide
example : normalize_person_name (("Charles").data)
    (some (("Charles O").data ++ [apos] ++ ("Brien").data)) = ("Charles").data := by decide

example : summarize_kb_context true [bug_passage]
    = ("[19-20] Led migration in 1999; Joined team in 2023").data := by decide

/-! ## Helper lemmas -/

theorem trim3_length_le {h : List Exchange} (hlen : h.length ≤ 4) :
    (trim3 h).length ≤ 3 := by
  unfold trim3
  split
  · next hgt => simp only [List.length_drop]; omega
  · next hle => omega

theorem trim3_append_last (l : List Exchange) (e : Exchange) :
    ∃ pre, trim3 (l ++ [e]) = pre ++ [e] := by
  unfold trim3
  split
  · next hgt =>
      refine ⟨l.drop ((l ++ [e]).length - 3), ?_⟩
      rw [List.drop_append_of_le_length]
      simp only [List.length_append, List.length_singleton] at hgt ⊢
      omega
  · next hle => exact ⟨l, rfl⟩

theorem rfindGo_lt (c : Char) (n : Nat) (t : Str) :
    ∀ (i : Nat) (best : Option Nat),
      (∀ m, best = some m → m < i) → rfindGo c i best t = some n → n < i + t.length := by
  induction t with
  | nil =>
      intro i best hb he
      simp only [rfindGo] at he
      simpa using hb n he
  | cons x xs ih =>
      intro i best hb he
      simp only [rfindGo] at he
      have h2 : ∀ m, (if x == c then some i else best) = some m → m < i + 1 := by
        intro m hm
        by_cases hx : x == c
        · rw [if_pos hx] at hm; cases hm; omega
        · rw [if_neg hx] at hm; exact Nat.lt_succ_of_lt (hb m hm)
      have h3 := ih (i + 1) _ h2 he
      simp only [List.length_cons]
      omega

theorem rfindChar_lt_length {s : Str} {c : Char} {n : Nat}
    (h : rfindChar s c = some n) : n < s.length := by
  have := rfindGo_lt c n s 0 none (by intro m hm; cases hm) h
  simpa using this

theorem mem_pyReplaceChar {c old new : Char} {s : Str}
    (h : c ∈ pyReplaceChar s old new) : c = new ∨ (c ∈ s ∧ ¬ c = old) := by
  unfold pyReplaceChar at h
  rcases List.mem_map.mp h with ⟨x, hx, hfx⟩
  by_cases hxo : x == old
  · rw [if_pos hxo] at hfx; exact Or.inl hfx.symm
  · rw [if_neg hxo] at hfx
    subst hfx
    exact Or.inr ⟨hx, by simpa using hxo⟩

theorem sanitize_question_no_ctrl (q : Str) :
    '\n' ∉ sanitize_question q ∧ '\r' ∉ sanitize_question q := by
  constructor
  · intro h
    rcases mem_pyReplaceChar h with h1 | ⟨h1, _⟩
    · exact absurd h1 (by decide)
    · rcases mem_pyReplaceChar h1 with h2 | ⟨_, h2⟩
      · exact absurd h2 (by decide)
      · exact h2 rfl
  · intro h
    rcases mem_pyReplaceChar h with h1 | ⟨_, h1⟩
    · exact absurd h1 (by decide)
    · exact h1 rfl

theorem lookupAssoc_eq_none {k : Str} :
    ∀ {m : List (Str × Str)}, k ∉ m.map Prod.fst → lookupAssoc k m = none := by
  intro m
  induction m with
  | nil => intro _; rfl
  | cons p rest ih =>
      intro h
      obtain ⟨k0, v0⟩ := p
      simp only [List.map_cons, List.mem_cons] at h
      push_neg at h
      unfold lookupAssoc
      rw [if_neg h.1]
      exact ih h.2

theorem calculate_eq_min (question : Str) (m : Nat) :
    calculate_response_length question m = min (classified_value question) m := by
  unfold calculate_response_length classified_value
  by_cases h1 : question_lower question ∈ greeting_words
  · simp [h1]
  · by_cases h2 : containsAnyOf (question_lower question) fact_words = true
    · simp [h1, h2]
    · by_cases h3 : containsAnyOf (question_lower question) interrogative_words = true
      · simp [h1, h2, h3]
      · by_cases h4 : containsAnyOf (question_lower question) narrative_words = true
        · simp [h1, h2, h3, h4]
        · simp [h1, h2, h3, h4]

theorem normalize_of_key (dp s k v : Str) (hne : pyStrip s ≠ [])
    (hk : pyLower (pyStrip s) = k) (hlk : lookupAssoc k name_mapping = some v) :
    normalize_person_name dp (some s) = v := by
  simp only [normalize_person_name]
  rw [if_neg hne, hk, hlk]

/-! ## Claims -/

/-- Claim C5, corrected.  The response-length policy
`PromptEngineer.calculate_response_length` maps `("hi", 1000)` to `100`
(the greeting branch is `min(100, max_tokens)`, not the `150` the claim
states); the other two sample values hold, and for every question and cap the
result is `min(classified_value, max_cap)`, hence never exceeds the cap. -/
theorem C5_response_length_policy :
    calculate_response_length (("hi").data) 1000 = 100
    ∧ calculate_response_length (("tell me about your background").data) 1000 = 700
    ∧ calculate_response_length (("tell me about your background").data) 200 = 200
    ∧ (∀ (question : Str) (max_cap : Nat),
        calculate_response_length question max_cap = min (classified_value question) max_cap
        ∧ calculate_response_length question max_cap ≤ max_cap) :=
  ⟨by decide, by decide, by decide,
   fun q m => ⟨calculate_eq_min q m, by rw [calculate_eq_min]; exact Nat.min_le_right _ _⟩⟩

/-- Claim C5, counterexample to the claim as stated:
`target_tokens("hi", 1000)` is not `150`. -/
theorem C5_counterexample :
    calculate_response_length (("hi").data) 1000 ≠ 150 := by decide

/-- Claim C6, confirmed.  The alias table maps (case-insensitively, after
stripping) `charlie`, `chaz` and `charles o'brien` to the canonical
`Charles`; any non-blank input not in the alias table is returned
title-cased (e.g. `maria` becomes `Maria`); a missing or blank input falls
back to the configured default persona name. -/
theorem C6_person_normalization :
    (∀ (dp s : Str), pyLower (pyStrip s) = ("charlie").data →
        normalize_person_name dp (some s) = ("Charles").data)
    ∧ (∀ (dp s : Str), pyLower (pyStrip s) = ("chaz").data →
        normalize_person_name dp (some s) = ("Charles").data)
    ∧ (∀ (dp s : Str),
        pyLower (pyStrip s) = ("charles o").data ++ [apos] ++ ("brien").data →
        normalize_person_name dp (some s) = ("Charles").data)
    ∧ (∀ (dp s : Str), pyStrip s ≠ [] →
        pyLower (pyStrip s) ∉ name_mapping.map Prod.fst →
        normalize_person_name dp (some s) = pyTitle (pyStrip s))
    ∧ (∀ dp : Str, normalize_person_name dp none = dp)
    ∧ (∀ (dp s : Str), pyStrip s = [] → normalize_person_name dp (some s) = dp)
    ∧ normalize_person_name (("Charles").data) (some (("maria").data)) = ("Maria").data := by
  refine ⟨?_, ?_, ?_, ?_, ?_, ?_, by decide⟩
  · intro dp s hk
    have hne : pyStrip s ≠ [] := by
      intro h0; rw [h0] at hk; exact absurd hk (by decide)
    exact normalize_of_key dp s _ _ hne hk (by decide)
  · intro dp s hk
    have hne : pyStrip s ≠ [] := by
      intro h0; rw [h0] at hk; exact absurd hk (by decide)
    exact normalize_of_key dp s _ _ hne hk (by decide)
  · intro dp s hk
    have hne : pyStrip s ≠ [] := by
      intro h0; rw [h0] at hk; exact absurd hk (by decide)
    exact normalize_of_key dp s _ _ hne hk (by decide)
  · intro dp s hne hmem
    simp only [normalize_person_name]
    rw [if_neg hne, lookupAssoc_eq_none hmem]
  · intro dp; rfl
  · intro dp s h
    simp only [normalize_person_name]
    rw [if_pos h]

/-- Claim C6, witness instances: the quantified parts of
`C6_person_normalization` applied at concrete inputs. -/
theorem C6_person_normalization_witness :
    normalize_person_name (("Bob").data) (some (("CHARLIE ").data)) = ("Charles").data
    ∧ normalize_person_name (("Bob").data) (some (("Chaz").data)) = ("Charles").data
    ∧ normalize_person_name (("Bob").data)
        (some (("Charles O").data ++ [apos] ++ ("Brien").data)) = ("Charles").data
    ∧ normalize_person_name (("Bob").data) (some (("maria").data)) = ("Maria").data
    ∧ normalize_person_name (("Bob").data) none = ("Bob").data
    ∧ normalize_person_name (("Bob").data) (some (("   ").data)) = ("Bob").data :=
  ⟨C6_person_normalization.1 _ _ (by decide),
   C6_person_normalization.2.1 _ _ (by decide),
   C6_person_normalization.2.2.1 _ _ (by decide),
   by rw [C6_person_normalization.2.2.2.1 _ _ (by decide) (by decide)]; decide,
   C6_person_normalization.2.2.2.2.1 _,
   C6_person_normalization.2.2.2.2.2.1 _ _ (by decide)⟩

/-- Claim C9: the code is defective.  `re.findall(r'\b(19|20)\d{2}\b', ...)`
returns only the captured century prefix (`19`/`20`), so the summarized
passage reads `[19-20] ...` where the documented intent (`Extract dates
(YYYY format)`) and the spec call for `[1999-2023] ...`. -/
theorem C9_year_capture :
    summarize_kb_context true [bug_passage]
      = ("[19-20] Led migration in 1999; Joined team in 2023").data
    ∧ summarize_kb_context true [bug_passage]
      ≠ ("[1999-2023] Led migration in 1999; Joined team in 2023").data := by
  constructor <;> decide

theorem query_bedrock_ok (p q : Str) (st : SessionState) (v a : Str) :
    query_bedrock p q st v (.ok a)
      = (a, { conversation_history :=
                trim3 (st.conversation_history
                  ++ [⟨sanitize_question q, trim_answer a (some 1200)⟩]),
              current_voice_style := some v,
              last_question := some (sanitize_question q),
              last_answer := some a }) := rfl

theorem query_bedrock_error (p q : Str) (st : SessionState) (v : Str) :
    query_bedrock p q st v (.error ())
      = (fallback_message, { st with last_answer := none, last_question := none }) := rfl

theorem process_chat_clarify (text : Str) (ss : Option SessionState) (v : Str)
    (slots : Option Str × Option Str) (gen : Except Unit Str)
    (h : effective_question text slots.2 = none) :
    process_chat text ss v slots gen
      = (clarification_message,
         { ss.getD SessionState.empty with current_voice_style := some v }) := by
  unfold process_chat
  rw [h]

theorem process_chat_generative (text : Str) (ss : Option SessionState) (v : Str)
    (slots : Option Str × Option Str) (gen : Except Unit Str) (qt : Str)
    (h : effective_question text slots.2 = some qt) :
    process_chat text ss v slots gen
      = ((query_bedrock (normalize_person_name (("Charles").data) slots.1) qt
            { ss.getD SessionState.empty with current_voice_style := some v } v gen).1,
         merge_states { ss.getD SessionState.empty with current_voice_style := some v }
           (query_bedrock (normalize_person_name (("Charles").data) slots.1) qt
              { ss.getD SessionState.empty with current_voice_style := some v } v gen).2) := by
  unfold process_chat
  rw [h]

theorem turn_step_hist_le (st : SessionState) (t : Turn)
    (h : st.conversation_history.length ≤ 3) :
    (turn_step st t).conversation_history.length ≤ 3 := by
  unfold turn_step
  cases hq : effective_question t.text t.slots.2 with
  | none =>
      rw [process_chat_clarify _ _ _ _ _ hq]
      simpa using h
  | some qt =>
      rw [process_chat_generative _ _ _ _ _ _ hq]
      cases t.gen with
      | ok a =>
          rw [query_bedrock_ok]
          simp only [merge_states]
          apply trim3_length_le
          simp only [List.length_append, List.length_singleton, Option.getD_some]
          omega
      | error e =>
          cases e
          rw [query_bedrock_error]
          simpa [merge_states] using h

/-- Claim C1, confirmed.  Starting from any state whose history holds at most
3 entries (in particular the empty first-turn state), after any sequence of
turns — successful, failed, or clarification turns — the history still holds
at most 3 entries; and pushing exchanges Q1..Q4 through four successful turns
from an empty session leaves the history `[Q2, Q3, Q4]`, oldest first. -/
theorem C1_memory_bound_fifo :
    (∀ (ts : List Turn) (st : SessionState),
        st.conversation_history.length ≤ 3 →
        (ts.foldl turn_step st).conversation_history.length ≤ 3)
    ∧ (([fifo_turn (("Q1").data) (("A1").data), fifo_turn (("Q2").data) (("A2").data),
         fifo_turn (("Q3").data) (("A3").data),
         fifo_turn (("Q4").data) (("A4").data)].foldl
          turn_step SessionState.empty).conversation_history
        = [⟨("Q2").data, ("A2").data⟩, ⟨("Q3").data, ("A3").data⟩,
           ⟨("Q4").data, ("A4").data⟩]) := by
  constructor
  · intro ts
    induction ts with
    | nil => intro st h; simpa using h
    | cons t rest ih =>
        intro st h
        simpa using ih (turn_step st t) (turn_step_hist_le st t h)
  · decide

/-- Claim C1, witness: the quantified invariant applied to a concrete
one-turn run from the empty session. -/
theorem C1_memory_bound_fifo_witness :
    ([fifo_turn (("Q1").data) (("A1").data)].foldl turn_step
        SessionState.empty).conversation_history.length ≤ 3 :=
  C1_memory_bound_fifo.1 _ SessionState.empty (by decide)

/-- Claim C2, counterexample to the claim as stated: after a failed
generative turn the state returned by the orchestrator still carries the
pre-turn `last_question`/`last_answer` — the dict merge
`{**session_attributes, **updated_attributes}` restores the keys that
`query_bedrock` popped — so they are not cleared. -/
theorem C2_counterexample :
    (process_chat (("hi").data) (some pre_failure_state) default_voice_style
        (none, some (("q1").data)) (.error ())).2.last_answer = some (("a0").data)
    ∧ (process_chat (("hi").data) (some pre_failure_state) default_voice_style
        (none, some (("q1").data)) (.error ())).2.last_question = some (("q0").data) := by
  constructor <;> decide

/-- Claim C2, corrected.  On generation failure the turn returns the fixed
fallback apology, the failed pair is not appended (the history is exactly the
pre-turn history), and `query_bedrock` pops `last_question`/`last_answer`
from its returned attributes — but the orchestrator merge restores the
pre-turn values of those two keys, so the state returned for the turn keeps
them rather than clearing them. -/
theorem C2_generation_failure :
    (∀ (p q : Str) (st : SessionState) (v : Str),
        query_bedrock p q st v (.error ())
          = (fallback_message, { st with last_answer := none, last_question := none }))
    ∧ (∀ (text : Str) (st : SessionState) (v : Str)
        (slots : Option Str × Option Str) (qt : Str),
        effective_question text slots.2 = some qt →
        process_chat text (some st) v slots (.error ())
          = (fallback_message,
             { conversation_history := st.conversation_history,
               current_voice_style := some v,
               last_question := st.last_question,
               last_answer := st.last_answer })) := by
  constructor
  · intro p q st v; rfl
  · intro text st v slots qt h
    rw [process_chat_generative _ _ _ _ _ _ h, query_bedrock_error]
    rfl

/-- Claim C2, witness: the corrected failure behaviour at a concrete turn. -/
theorem C2_generation_failure_witness :
    process_chat (("hi").data) (some pre_failure_state) default_voice_style
        (none, some (("q1").data)) (.error ())
      = (fallback_message,
         { conversation_history := pre_failure_state.conversation_history,
           current_voice_style := some default_voice_style,
           last_question := pre_failure_state.last_question,
           last_answer := pre_failure_state.last_answer }) :=
  C2_generation_failure.2 (("hi").data) pre_failure_state default_voice_style
    (none, some (("q1").data)) (("q1").data) (by decide)

/-- Claim C3, counterexample to the claim as stated: a whitespace-only turn
with no extracted slots returns the clarification message but leaves the
prior non-empty `conversation_history` in place — it is not reset. -/
theorem C3_counterexample :
    (process_chat (("   ").data) (some pre_failure_state) default_voice_style
        (none, none) (.ok (("x").data))).1 = clarification_message
    ∧ (process_chat (("   ").data) (some pre_failure_state) default_voice_style
        (none, none) (.ok (("x").data))).2.conversation_history ≠ [] := by
  constructor <;> decide

/-- Claim C3, corrected.  A turn whose input is empty or whitespace-only and
whose question slot is absent returns the fixed clarification string together
with the prior session state in which only `current_voice_style` has been
set; the `conversation_history` is passed through unchanged, not reset. -/
theorem C3_empty_question_fallback :
    ∀ (st : SessionState) (v text : Str) (person_slot : Option Str)
      (gen : Except Unit Str),
      pyStrip text = [] →
      process_chat text (some st) v (person_slot, none) gen
        = (clarification_message, { st with current_voice_style := some v }) := by
  intro st v text ps gen h
  have he : effective_question text none = none := by
    simp [effective_question, h]
  rw [process_chat_clarify _ _ _ _ _ he]
  rfl

/-- Claim C3, witness: the corrected fallback behaviour at a concrete
whitespace-only turn. -/
theorem C3_empty_question_fallback_witness :
    process_chat (("   ").data) (some pre_failure_state) default_voice_style
        (none, none) (.ok (("x").data))
      = (clarification_message,
         { pre_failure_state with current_voice_style := some default_voice_style }) :=
  C3_empty_question_fallback pre_failure_state _ _ _ _ (by decide)

/-- Claim C4, counterexample to the claim as stated: with a recognizer
response carrying the non-empty, non-error direct message `pong`
(`has_direct_response` is true), the orchestrator still returns the
generation backend's answer — not the direct message — and does not pass the
prior state through unchanged. -/
theorem C4_counterexample :
    has_direct_response ⟨[("pong").data]⟩ = true
    ∧ (process_chat (("ping").data) (some SessionState.empty) default_voice_style
          (none, none) (.ok (("generated").data))).1 = ("generated").data
    ∧ ("generated").data ≠ ("pong").data
    ∧ (process_chat (("ping").data) (some SessionState.empty) default_voice_style
          (none, none) (.ok (("generated").data))).2 ≠ SessionState.empty := by
  refine ⟨rfl, by decide, by decide, by decide⟩

/-- Claim C4, corrected.  The orchestrator `ChatService.process_chat` has no
direct-response short-circuit: it never consults the recognizer's messages
(`LexService.has_direct_response` has no caller in the flow), and on every
turn with a usable question it invokes the generation backend and returns
that backend's answer (or the fixed fallback when the backend fails). -/
theorem C4_no_short_circuit :
    ∀ (text : Str) (ss : Option SessionState) (v : Str)
      (slots : Option Str × Option Str) (gen : Except Unit Str) (qt : Str),
      effective_question text slots.2 = some qt →
      (process_chat text ss v slots gen).1
        = match gen with
          | .ok a => a
          | .error _ => fallback_message := by
  intro text ss v slots gen qt h
  rw [process_chat_generative _ _ _ _ _ _ h]
  cases gen with
  | ok a => rfl
  | error e => rfl

/-- Claim C4, witness: the generative path taken at a concrete turn. -/
theorem C4_no_short_circuit_witness :
    (process_chat (("ping").data) (some SessionState.empty) default_voice_style
        (none, none) (.ok (("generated").data))).1 = ("generated").data :=
  C4_no_short_circuit _ _ _ _ _ (("ping").data) (by decide)

/-- Claim C7, counterexample to the claim as stated: when the backend answer
contains an interior newline and is short enough to escape trimming, the
entry appended to `conversation_history` stores that newline verbatim — the
answer is not newline-sanitized. -/
theorem C7_counterexample :
    ∃ e ∈ (query_bedrock [] (("q").data) SessionState.empty default_voice_style
        (.ok (("a").data ++ '\n' :: ("b").data))).2.conversation_history,
      '\n' ∈ e.answer := by decide

/-- Claim C7, corrected.  In the entry appended on a successful turn the
*question* is sanitized — stripped, then every newline and carriage return
replaced by a space, so it contains neither — but the *answer* is only
stripped and length-trimmed (`_trim_answer(..., 1200)`) and may retain
interior newlines. -/
theorem C7_history_sanitization :
    ∀ (p q a : Str) (st : SessionState) (v : Str),
      (∃ pre, (query_bedrock p q st v (.ok a)).2.conversation_history
          = pre ++ [⟨sanitize_question q, trim_answer a (some 1200)⟩])
      ∧ '\n' ∉ sanitize_question q ∧ '\r' ∉ sanitize_question q := by
  intro p q a st v
  refine ⟨?_, (sanitize_question_no_ctrl q).1, (sanitize_question_no_ctrl q).2⟩
  rw [query_bedrock_ok]
  exact trim3_append_last _ _

/-- Claim C8, counterexample to the claim as stated: a request that omits
`voice_style` runs with the parameter default `normal`, which overwrites the
stored `pirate` style — the stored value does not persist. -/
theorem C8_counterexample :
    (process_chat (("hi").data) (some pirate_state) default_voice_style
        (none, some (("hi").data)) (.ok (("x").data))).2.current_voice_style
      = some default_voice_style
    ∧ some default_voice_style ≠ some (("pirate").data) := by
  constructor <;> decide

/-- Claim C8, corrected.  After every turn — clarification, success or
failure — the stored `current_voice_style` equals the `voice_style` argument
of the call (the request's value, or the parameter default `normal` when the
request omits it); the previously stored style never persists. -/
theorem C8_voice_style_overwritten :
    ∀ (text : Str) (ss : Option SessionState) (v : Str)
      (slots : Option Str × Option Str) (gen : Except Unit Str),
      (process_chat text ss v slots gen).2.current_voice_style = some v := by
  intro text ss v slots gen
  cases hq : effective_question text slots.2 with
  | none => rw [process_chat_clarify _ _ _ _ _ hq]
  | some qt =>
      rw [process_chat_generative _ _ _ _ _ _ hq]
      cases gen with
      | ok a => rfl
      | error e => cases e; rfl

/-- Claim C10, counterexample to the claim as stated: a 1201-character
answer with no sentence or line boundary is stored in the history as its
first 1200 characters plus a three-character ellipsis — 1203 characters,
exceeding the claimed 1200-character bound. -/
theorem dropWhile_space_replicate_a (n : Nat) :
    List.dropWhile pyIsSpace (List.replicate n 'a') = List.replicate n 'a' := by
  cases n with
  | zero => rfl
  | succ m =>
      rw [List.replicate_succ, List.dropWhile_cons, if_neg (by decide)]

theorem pyStrip_replicate_a (n : Nat) :
    pyStrip (List.replicate n 'a') = List.replicate n 'a' := by
  unfold pyStrip
  rw [dropWhile_space_replicate_a, List.reverse_replicate,
    dropWhile_space_replicate_a, List.reverse_replicate]

theorem rfindGo_none (c : Char) (l : Str) (h : c ∉ l) :
    ∀ i : Nat, rfindGo c i none l = none := by
  induction l with
  | nil => intro i; rfl
  | cons x t ih =>
      intro i
      simp only [List.mem_cons, not_or] at h
      have hxc : (x == c) = false := beq_eq_false_iff_ne.mpr (fun he => h.1 he.symm)
      simp only [rfindGo, hxc, Bool.false_eq_true, if_false]
      exact ih h.2 (i + 1)

theorem rfindChar_replicate_a_none (c : Char) (n : Nat) (hc : c ≠ 'a') :
    rfindChar (List.replicate n 'a') c = none := by
  unfold rfindChar
  exact rfindGo_none c _ (fun hm => hc (List.eq_of_mem_replicate hm)) 0

theorem gtFrac_none (m : Nat) : gtFrac none m = false := rfl

theorem trim_answer_replicate_a {n : Nat} (h : 1200 < n) :
    trim_answer (List.replicate n 'a') (some 1200)
      = List.replicate 1200 'a' ++ ("...").data := by
  simp only [trim_answer, pyStrip_replicate_a]
  rw [if_neg (by simp only [List.length_replicate]; omega)]
  rw [List.take_replicate]
  have hmin : min 1200 n = 1200 := by omega
  rw [hmin, rfindChar_replicate_a_none _ _ (by decide),
    rfindChar_replicate_a_none _ _ (by decide)]
  simp only [gtFrac_none, Bool.false_eq_true, if_false]

theorem C10_counterexample :
    ((query_bedrock [] [] SessionState.empty default_voice_style
        (.ok (List.replicate 1201 'a'))).2.conversation_history.map
          (fun e => e.answer.length)) = [1203] := by
  rw [query_bedrock_ok]
  simp only [SessionState.empty, trim3, List.nil_append, List.length_singleton]
  rw [if_neg (by omega)]
  simp only [List.map_cons, List.map_nil]
  rw [trim_answer_replicate_a (by omega)]
  simp only [List.length_append, List.length_replicate, List.length_cons,
    List.length_nil]

/-- Claim C10, corrected.  On a successful turn `last_answer` holds the full
untrimmed answer while the appended history entry holds
`_trim_answer(answer, 1200)`, which is at most 1203 characters (at most 1200
when cut at a sentence/line boundary or already short, else the first 1200
characters plus a three-character ellipsis); the two strings can differ, and
for long answers the stored history answer is shorter than `last_answer`. -/
theorem C10_trimmed_history_full_last_answer :
    (∀ (p q a : Str) (st : SessionState) (v : Str),
        (query_bedrock p q st v (.ok a)).2.last_answer = some a
        ∧ (∃ pre, (query_bedrock p q st v (.ok a)).2.conversation_history
            = pre ++ [⟨sanitize_question q, trim_answer a (some 1200)⟩]))
    ∧ (∀ a : Str, (trim_answer a (some 1200)).length ≤ 1203)
    ∧ trim_answer (List.replicate 2000 'a') (some 1200) ≠ List.replicate 2000 'a'
    ∧ (trim_answer (List.replicate 2000 'a') (some 1200)).length < 2000 := by
  refine ⟨fun p q a st v => ⟨by rw [query_bedrock_ok], ?_⟩, ?_, ?_, ?_⟩
  · rw [query_bedrock_ok]
    exact trim3_append_last _ _
  · intro a
    simp only [trim_answer]
    by_cases h1 : (pyStrip a).length ≤ 1200
    · rw [if_pos h1]; omega
    · rw [if_neg h1]
      by_cases h2 : gtFrac (rfindChar ((pyStrip a).take 1200) '.') 1200 = true
      · rw [if_pos h2]
        rcases hr : rfindChar ((pyStrip a).take 1200) '.' with _ | n
        · rw [hr] at h2; simp [gtFrac] at h2
        · have hn := rfindChar_lt_length hr
          have hlen : ((pyStrip a).take 1200).length ≤ 1200 := by
            simpa using Nat.min_le_left 1200 (pyStrip a).length
          have htk : ((pyStrip a).take (n + 1)).length ≤ n + 1 := by
            simpa using Nat.min_le_left (n + 1) (pyStrip a).length
          simp only [Option.getD_some]
          omega
      · rw [if_neg h2]
        by_cases h3 : gtFrac (rfindChar ((pyStrip a).take 1200) '\n') 1200 = true
        · rw [if_pos h3]
          rcases hr : rfindChar ((pyStrip a).take 1200) '\n' with _ | n
          · rw [hr] at h3; simp [gtFrac] at h3
          · have hn := rfindChar_lt_length hr
            have hlen : ((pyStrip a).take 1200).length ≤ 1200 := by
              simpa using Nat.min_le_left 1200 (pyStrip a).length
            have htk : ((pyStrip a).take n).length ≤ n := by
              simpa using Nat.min_le_left n (pyStrip a).length
            simp only [Option.getD_some]
            omega
        · rw [if_neg h3]
          have htk : ((pyStrip a).take 1200).length ≤ 1200 := by
            simpa using Nat.min_le_left 1200 (pyStrip a).length
          simp only [List.length_append, List.length_cons, List.length_nil]
          omega
  · rw [trim_answer_replicate_a (by omega)]
    intro he
    have hlen := congrArg List.length he
    simp only [List.length_append, List.length_replicate, List.length_cons,
      List.length_nil] at hlen
    omega
  · rw [trim_answer_replicate_a (by omega)]
    simp only [List.length_append, List.length_replicate, List.length_cons,
      List.length_nil]
    omega
